import Mathlib

/-!
Shallow embedding of the pbio motor-control core of this repository
(lib/pbio/src/observer.c, lib/pbio/src/servo.c,
lib/pbio/src/motor/servo_settings.c), together with theorems checking the
natural-language specification against the code.

All C `int32_t` arithmetic is modelled over unbounded `Int`; C integer
division (truncation toward zero) is modelled by `Int.tdiv`.
-/

namespace Pbio

/-- Millidegrees per degree, from observer.c. -/
def MDEG_PER_DEG : Int := 1000

/-- Maximum internal observer angle in millidegrees, from observer.c. -/
def MDEG_MAX : Int := 1000000 * MDEG_PER_DEG

/-- Microseconds per millisecond, the standard unit constant used by the
sources as `US_PER_MS` (its defining header is not among the sources). -/
def US_PER_MS : Int := 1000

/-- Counts per degree; observer.c falls back to 1 when the platform config
does not provide a value, and that fallback is the value in effect here. -/
def COUNTS_PER_DEGREE : Int := 1

/-- Modelled from the spec: the PRESCALE_SPEED constant of pbio/observer.h
is not among the sources; the spec fixes only that the PRESCALE constants
are fixed integer scaling factors permitting integer-only arithmetic.
A representative positive value is chosen; every confirmed theorem below is
independent of this choice. -/
def PRESCALE_SPEED : Int := 1000

/-- Modelled from the spec: the PRESCALE_CURRENT constant of
pbio/observer.h, see PRESCALE_SPEED. -/
def PRESCALE_CURRENT : Int := 1000

/-- Modelled from the spec: the PRESCALE_VOLTAGE constant of
pbio/observer.h, see PRESCALE_SPEED. -/
def PRESCALE_VOLTAGE : Int := 1000

/-- Modelled from the spec: the PRESCALE_TORQUE constant of
pbio/observer.h, see PRESCALE_SPEED. -/
def PRESCALE_TORQUE : Int := 1000

/-- Modelled from the spec: the PRESCALE_ACCELERATION constant of
pbio/observer.h, see PRESCALE_SPEED. -/
def PRESCALE_ACCELERATION : Int := 1000

/-- Actuation kinds, from the spec's exposed enumeration
COAST / BRAKE / HOLD / DUTY (pbio_actuation_t and, for the observer update,
pbio_dcmotor_actuation_t, whose defining headers are not among the
sources; only the COAST tag is inspected by the code under proof). -/
inductive Actuation where
  | COAST
  | BRAKE
  | HOLD
  | DUTY
deriving DecidableEq, Repr

/-- Error kinds (pbio_error_t); the core only forwards these. -/
inductive PbioError where
  | SUCCESS
  | INVALID_PORT
  | INVALID_ARG
  | IOERR
  | NOT_SUPPORTED
  | AGAIN
deriving DecidableEq, Repr

/-- Observer model: the static per-motor-type coefficient bundle
pbio_observer_model_t, with the field names of servo_settings.c. -/
structure ObserverModel where
  d_angle_d_speed : Int
  d_speed_d_speed : Int
  d_current_d_speed : Int
  d_angle_d_current : Int
  d_speed_d_current : Int
  d_current_d_current : Int
  d_angle_d_voltage : Int
  d_speed_d_voltage : Int
  d_current_d_voltage : Int
  d_angle_d_torque : Int
  d_speed_d_torque : Int
  d_current_d_torque : Int
  d_voltage_d_torque : Int
  d_torque_d_voltage : Int
  d_torque_d_speed : Int
  d_torque_d_acceleration : Int
  torque_friction : Int
  gain : Int
deriving DecidableEq, Repr

/-- The Technic L motor model, transcribed verbatim from
servo_settings.c (model_technic_l). -/
def model_technic_l : ObserverModel :=
  { d_angle_d_speed := 175977
    d_speed_d_speed := 912
    d_current_d_speed := -159828
    d_angle_d_current := 5728019
    d_speed_d_current := 22787
    d_current_d_current := -44152415
    d_angle_d_voltage := 6164994
    d_speed_d_voltage := 12888
    d_current_d_voltage := 142828
    d_angle_d_torque := -1377701
    d_speed_d_torque := -3482
    d_current_d_torque := 794862
    d_voltage_d_torque := 62889
    d_torque_d_voltage := 6110
    d_torque_d_speed := 6837
    d_torque_d_acceleration := 108520
    torque_friction := 26430
    gain := 1500 }

/-- The Technic S angular motor model, transcribed verbatim from
servo_settings.c (model_technic_s_angular). -/
def model_technic_s_angular : ObserverModel :=
  { d_angle_d_speed := 179217
    d_speed_d_speed := 956
    d_current_d_speed := -249247
    d_angle_d_current := 1950303
    d_speed_d_current := 7666
    d_current_d_current := -9356019
    d_angle_d_voltage := 5654927
    d_speed_d_voltage := 11702
    d_current_d_voltage := 349105
    d_angle_d_torque := -425928
    d_speed_d_torque := -1085
    d_current_d_torque := 383927
    d_voltage_d_torque := 22334
    d_torque_d_voltage := 17203
    d_torque_d_speed := 12282
    d_torque_d_acceleration := 354592
    torque_friction := 9182
    gain := 500 }

/-- The Technic M angular motor model, transcribed verbatim from
servo_settings.c (model_technic_m_angular). -/
def model_technic_m_angular : ObserverModel :=
  { d_angle_d_speed := 177194
    d_speed_d_speed := 934
    d_current_d_speed := -165023
    d_angle_d_current := 2407354
    d_speed_d_current := 8311
    d_current_d_current := 1058029
    d_angle_d_voltage := 7431528
    d_speed_d_voltage := 14444
    d_current_d_voltage := 225610
    d_angle_d_torque := -919183
    d_speed_d_torque := -2332
    d_current_d_torque := 629020
    d_voltage_d_torque := 47606
    d_torque_d_voltage := 8071
    d_torque_d_speed := 5903
    d_torque_d_acceleration := 163151
    torque_friction := 21413
    gain := 2000 }

/-- The Technic L angular motor model, transcribed verbatim from
servo_settings.c (model_technic_l_angular). -/
def model_technic_l_angular : ObserverModel :=
  { d_angle_d_speed := 174943
    d_speed_d_speed := 904
    d_current_d_speed := -58045
    d_angle_d_current := 8368268
    d_speed_d_current := 26508
    d_current_d_current := 396164
    d_angle_d_voltage := 13442903
    d_speed_d_voltage := 25105
    d_current_d_voltage := 86900
    d_angle_d_torque := -3690545
    d_speed_d_torque := -9310
    d_current_d_torque := 975141
    d_voltage_d_torque := 133763
    d_torque_d_voltage := 2872
    d_torque_d_speed := 1919
    d_torque_d_acceleration := 40344
    torque_friction := 23239
    gain := 4000 }

/-- The Interactive motor model, transcribed verbatim from
servo_settings.c (model_interactive). -/
def model_interactive : ObserverModel :=
  { d_angle_d_speed := 179110
    d_speed_d_speed := 941
    d_current_d_speed := -316164
    d_angle_d_current := 7311289
    d_speed_d_current := 35750
    d_current_d_current := -12014584
    d_angle_d_voltage := 4603893
    d_speed_d_voltage := 10967
    d_current_d_voltage := 355664
    d_angle_d_torque := -728461
    d_speed_d_torque := -1850
    d_current_d_torque := 668004
    d_voltage_d_torque := 32225
    d_torque_d_voltage := 11923
    d_torque_d_speed := 10599
    d_torque_d_acceleration := 207820
    torque_friction := 11227
    gain := 2000 }

/-- The Technic XL motor model, transcribed verbatim from
servo_settings.c (model_technic_xl). -/
def model_technic_xl : ObserverModel :=
  { d_angle_d_speed := 176559
    d_speed_d_speed := 916
    d_current_d_speed := -175173
    d_angle_d_current := 8098298
    d_speed_d_current := 35736
    d_current_d_current := -7606150
    d_angle_d_voltage := 5471477
    d_speed_d_voltage := 12148
    d_current_d_voltage := 156891
    d_angle_d_torque := -1282598
    d_speed_d_torque := -3244
    d_current_d_torque := 729279
    d_voltage_d_torque := 55617
    d_torque_d_voltage := 6908
    d_torque_d_speed := 7713
    d_torque_d_acceleration := 116867
    torque_friction := 12893
    gain := 2000 }

/-- The Move hub motor model, transcribed verbatim from
servo_settings.c (model_movehub). -/
def model_movehub : ObserverModel :=
  { d_angle_d_speed := 176283
    d_speed_d_speed := 913
    d_current_d_speed := -202833
    d_angle_d_current := 7437051
    d_speed_d_current := 32807
    d_current_d_current := -8118383
    d_angle_d_voltage := 5022928
    d_speed_d_voltage := 11156
    d_current_d_voltage := 157720
    d_angle_d_torque := -966059
    d_speed_d_torque := -2442
    d_current_d_torque := 636829
    d_voltage_d_torque := 45536
    d_torque_d_voltage := 8438
    d_torque_d_speed := 10851
    d_torque_d_acceleration := 155017
    torque_friction := 24835
    gain := 2000 }

/-- The EV3 large motor model, transcribed verbatim from
servo_settings.c (model_ev3_l). -/
def model_ev3_l : ObserverModel :=
  { d_angle_d_speed := 173282
    d_speed_d_speed := 881
    d_current_d_speed := -69014
    d_angle_d_current := 15363470
    d_speed_d_current := 49919
    d_current_d_current := 491835
    d_angle_d_voltage := 30444180
    d_speed_d_voltage := 57613
    d_current_d_voltage := 118854
    d_angle_d_torque := -7467749
    d_speed_d_torque := -18754
    d_current_d_torque := 2298785
    d_voltage_d_torque := 107106
    d_torque_d_voltage := 3587
    d_torque_d_speed := 2083
    d_torque_d_acceleration := 19838
    torque_friction := 16476
    gain := 4000 }

/-- The EV3 medium motor model, transcribed verbatim from
servo_settings.c (model_ev3_m). -/
def model_ev3_m : ObserverModel :=
  { d_angle_d_speed := 174833
    d_speed_d_speed := 899
    d_current_d_speed := -179788
    d_angle_d_current := 5508196
    d_speed_d_current := 20798
    d_current_d_current := 4313632
    d_angle_d_voltage := 10143433
    d_speed_d_voltage := 20656
    d_current_d_voltage := 196531
    d_angle_d_torque := -1577148
    d_speed_d_torque := -3975
    d_current_d_torque := 1082649
    d_voltage_d_torque := 47722
    d_torque_d_speed := 7365
    d_torque_d_voltage := 8051
    d_torque_d_acceleration := 94428
    torque_friction := 18317
    gain := 2000 }

/-- Observer state (pbio_observer_t), from pbio/observer. -/
structure Observer where
  angle_offset : Int
  angle : Int
  speed : Int
  current : Int
  stalled : Bool
  stall_start : Int
deriving DecidableEq, Repr

/-- An all-zero observer, standing for the static zero-initialized
C object before its first reset. -/
def obs_init : Observer :=
  { angle_offset := 0, angle := 0, speed := 0, current := 0
    stalled := false, stall_start := 0 }

/-- pbio_observer_reset from observer.c: set the offset to the measured
position in degrees and zero angle, speed, current and the stall flag.
(The C code does not touch stall_start on reset.) -/
def pbio_observer_reset (obs : Observer) (count_now : Int) : Observer :=
  { obs with
    angle_offset := count_now.tdiv COUNTS_PER_DEGREE
    angle := 0
    speed := 0
    current := 0
    stalled := false }

/-- pbio_observer_get_estimated_state from observer.c. -/
def pbio_observer_get_estimated_state (obs : Observer) : Int × Int :=
  (obs.angle_offset + obs.angle.tdiv MDEG_PER_DEG, obs.speed.tdiv MDEG_PER_DEG)

/-- pbio_observer_torque_to_voltage from observer.c. -/
def pbio_observer_torque_to_voltage (m : ObserverModel) (desired_torque : Int) : Int :=
  (desired_torque * m.d_torque_d_voltage).tdiv PRESCALE_VOLTAGE

/-- pbio_observer_voltage_to_torque from observer.c. -/
def pbio_observer_voltage_to_torque (m : ObserverModel) (voltage : Int) : Int :=
  (PRESCALE_VOLTAGE * voltage).tdiv m.d_torque_d_voltage

/-- update_stall_state from observer.c: flip to forward-motion form when
the applied voltage is negative, then test the three stall conditions;
record the rising edge time and clear the flag otherwise. -/
def update_stall_state (obs : Observer) (time voltage feedback_voltage : Int) : Observer :=
  let speed := if voltage < 0 then -obs.speed else obs.speed
  let fb := if voltage < 0 then -feedback_voltage else feedback_voltage
  let v := if voltage < 0 then -voltage else voltage
  if speed < 50 * MDEG_PER_DEG ∧ fb < 0 ∧ -fb > v.tdiv 2 then
    { obs with
      stalled := true
      stall_start := if obs.stalled then obs.stall_start else time }
  else
    { obs with stalled := false }

/-- The modeled friction torque of observer.c line 101: the C conditional
`obs->speed > 0 ? m->torque_friction : -m->torque_friction`. -/
def observer_friction_torque (m : ObserverModel) (speed : Int) : Int :=
  if 0 < speed then m.torque_friction else -m.torque_friction

/-- Modelled from the spec: pbio_math_sign of pbio/math.c is not among the
sources; per the spec's math utilities it is the usual integer sign with
sign 0 = 0. -/
def pbio_math_sign (x : Int) : Int :=
  if 0 < x then 1 else if x < 0 then -1 else 0

/-- One input record for pbio_observer_update. -/
structure ObsInput where
  time : Int
  count : Int
  actuation : Actuation
  voltage : Int
deriving DecidableEq, Repr

/-- The pre-normalization next angle computed inside pbio_observer_update
(the value of the C local `angle_next` before the MDEG_MAX wrap check),
given the already-augmented voltage and the modeled torque. -/
def observer_angle_next (m : ObserverModel) (obs : Observer) (voltage torque : Int) : Int :=
  obs.angle +
    (PRESCALE_SPEED * obs.speed).tdiv m.d_angle_d_speed +
    (PRESCALE_CURRENT * obs.current).tdiv m.d_angle_d_current +
    (PRESCALE_VOLTAGE * voltage).tdiv m.d_angle_d_voltage +
    (PRESCALE_TORQUE * torque).tdiv m.d_angle_d_torque

/-- The next speed computed inside pbio_observer_update before the
friction zero-crossing clamp. -/
def observer_speed_next (m : ObserverModel) (obs : Observer) (voltage torque : Int) : Int :=
  0 +
    (PRESCALE_SPEED * obs.speed).tdiv m.d_speed_d_speed +
    (PRESCALE_CURRENT * obs.current).tdiv m.d_speed_d_current +
    (PRESCALE_VOLTAGE * voltage).tdiv m.d_speed_d_voltage +
    (PRESCALE_TORQUE * torque).tdiv m.d_speed_d_torque

/-- The next current computed inside pbio_observer_update. -/
def observer_current_next (m : ObserverModel) (obs : Observer) (voltage torque : Int) : Int :=
  0 +
    (PRESCALE_SPEED * obs.speed).tdiv m.d_current_d_speed +
    (PRESCALE_CURRENT * obs.current).tdiv m.d_current_d_current +
    (PRESCALE_VOLTAGE * voltage).tdiv m.d_current_d_voltage +
    (PRESCALE_TORQUE * torque).tdiv m.d_current_d_torque

/-- The feedback voltage computed inside pbio_observer_update from the
angle residual. -/
def observer_feedback_voltage (m : ObserverModel) (obs : Observer) (count : Int) : Int :=
  let angle := (count.tdiv COUNTS_PER_DEGREE - obs.angle_offset) * MDEG_PER_DEG
  pbio_observer_torque_to_voltage m ((m.gain * (angle - obs.angle)).tdiv MDEG_PER_DEG)

/-- The pre-normalization next angle of one full pbio_observer_update step,
as a function of the raw inputs. -/
def observer_pre_norm_angle (m : ObserverModel) (obs : Observer) (u : ObsInput) : Int :=
  let feedback_voltage := observer_feedback_voltage m obs u.count
  let voltage := u.voltage + feedback_voltage
  let torque := observer_friction_torque m obs.speed
  observer_angle_next m obs voltage torque

/-- pbio_observer_update from observer.c. The COAST branch of the C code is
an empty TODO and has no effect; the stall state is updated first, then the
linear transition, friction zero-crossing clamp, and range normalization. -/
def pbio_observer_update (m : ObserverModel) (obs : Observer) (u : ObsInput) : Observer :=
  let feedback_voltage := observer_feedback_voltage m obs u.count
  let obs1 := update_stall_state obs u.time u.voltage feedback_voltage
  let voltage := u.voltage + feedback_voltage
  let torque := observer_friction_torque m obs1.speed
  let angle_next := observer_angle_next m obs1 voltage torque
  let speed_next0 := observer_speed_next m obs1 voltage torque
  let speed_next :=
    if decide (speed_next0 < 0) ≠
        decide (speed_next0 - (PRESCALE_TORQUE * torque).tdiv m.d_speed_d_torque < 0) then
      0
    else
      speed_next0
  let current_next := observer_current_next m obs1 voltage torque
  if angle_next > MDEG_MAX then
    { obs1 with
      angle := angle_next - MDEG_MAX
      angle_offset := obs1.angle_offset + MDEG_MAX.tdiv MDEG_PER_DEG
      speed := speed_next
      current := current_next }
  else if angle_next < -MDEG_MAX then
    { obs1 with
      angle := angle_next + MDEG_MAX
      angle_offset := obs1.angle_offset - MDEG_MAX.tdiv MDEG_PER_DEG
      speed := speed_next
      current := current_next }
  else
    { obs1 with
      angle := angle_next
      speed := speed_next
      current := current_next }

/-- pbio_observer_is_stalled from observer.c, returning the C bool result
together with the value stored in *stall_duration. -/
def pbio_observer_is_stalled (obs : Observer) (time : Int) : Bool × Int :=
  if obs.stalled = true ∧ time - obs.stall_start > 200 * US_PER_MS then
    (true, (time - obs.stall_start).tdiv US_PER_MS)
  else
    (false, 0)

/-- Run the observer over a list of update inputs. -/
def runObs (m : ObserverModel) (obs : Observer) (us : List ObsInput) : Observer :=
  us.foldl (pbio_observer_update m) obs

/-- True when the stalled flag is set after every single update of the
run, i.e. the stall predicate held at every tick. -/
def allStalled (m : ObserverModel) : Observer → List ObsInput → Bool
  | _, [] => true
  | obs, u :: rest =>
    (pbio_observer_update m obs u).stalled && allStalled m (pbio_observer_update m obs u) rest

/-- True when the four products the C code forms for the angle row of the
state transition (observer.c:104-108, `PRESCALE_x * value`) fit in a signed
32-bit integer for this update: the condition under which the C abstract
machine defines the computation (signed overflow is undefined behavior). -/
def angle_terms_int32 (m : ObserverModel) (obs : Observer) (u : ObsInput) : Bool :=
  decide (|PRESCALE_SPEED * obs.speed| ≤ 2147483647) &&
  decide (|PRESCALE_CURRENT * obs.current| ≤ 2147483647) &&
  decide (|PRESCALE_VOLTAGE *
    (u.voltage + observer_feedback_voltage m obs u.count)| ≤ 2147483647) &&
  decide (|PRESCALE_TORQUE * observer_friction_torque m obs.speed| ≤ 2147483647)

/-- True when every update of the run stays in the int32-defined regime of
angle_terms_int32. -/
def overflowFreeRun (m : ObserverModel) : Observer → List ObsInput → Bool
  | _, [] => true
  | obs, u :: rest =>
    angle_terms_int32 m obs u && overflowFreeRun m (pbio_observer_update m obs u) rest

/-- Device type identifiers (pbio_iodev_type_id_t). Modelled from the spec:
pbio/iodev.h is not among the sources; the spec's motor type enumeration and
the identifiers named by servo.c and servo_settings.c give these tags. -/
inductive IodevTypeId where
  | NONE
  | EV3_MEDIUM_MOTOR
  | EV3_LARGE_MOTOR
  | MOVE_HUB_MOTOR
  | INTERACTIVE_MOTOR
  | TECHNIC_L_MOTOR
  | TECHNIC_XL_MOTOR
  | SPIKE_S_MOTOR
  | SPIKE_M_MOTOR
  | SPIKE_L_MOTOR
  | TECHNIC_L_ANGULAR_MOTOR
  | TECHNIC_M_ANGULAR_MOTOR
deriving DecidableEq, Repr

/-- Control settings (pbio_control_settings_t), with the field names used by
the initializers in servo.c. `counts_per_unit` is filled in during servo
setup; the C statics leave it zero-initialized. -/
structure ControlSettings where
  max_rate : Int
  abs_acceleration : Int
  rate_tolerance : Int
  count_tolerance : Int
  stall_rate_limit : Int
  stall_time : Int
  pid_kp : Int
  pid_ki : Int
  pid_kd : Int
  integral_range : Int
  integral_rate : Int
  max_control : Int
  control_offset : Int
  counts_per_unit : Int
deriving DecidableEq, Repr

/-- settings_servo_ev3_medium, transcribed verbatim from servo.c. -/
def settings_servo_ev3_medium : ControlSettings :=
  { max_rate := 2000, abs_acceleration := 4000, rate_tolerance := 10
    count_tolerance := 6, stall_rate_limit := 4, stall_time := 200 * US_PER_MS
    pid_kp := 500, pid_ki := 800, pid_kd := 3, integral_range := 45
    integral_rate := 6, max_control := 10000, control_offset := 1500
    counts_per_unit := 0 }

/-- settings_servo_ev3_large, transcribed verbatim from servo.c. -/
def settings_servo_ev3_large : ControlSettings :=
  { max_rate := 1600, abs_acceleration := 3200, rate_tolerance := 10
    count_tolerance := 6, stall_rate_limit := 4, stall_time := 200 * US_PER_MS
    pid_kp := 400, pid_ki := 1500, pid_kd := 5, integral_range := 45
    integral_rate := 6, max_control := 10000, control_offset := 0
    counts_per_unit := 0 }

/-- settings_servo_move_hub, transcribed verbatim from servo.c. -/
def settings_servo_move_hub : ControlSettings :=
  { max_rate := 1500, abs_acceleration := 3000, rate_tolerance := 5
    count_tolerance := 3, stall_rate_limit := 2, stall_time := 200 * US_PER_MS
    pid_kp := 400, pid_ki := 600, pid_kd := 5, integral_range := 45
    integral_rate := 3, max_control := 10000, control_offset := 0
    counts_per_unit := 0 }

/-- settings_servo_default, transcribed verbatim from servo.c. Note that its
stall_time initializer is the bare literal 200, without the US_PER_MS
factor present in every other settings block. -/
def settings_servo_default : ControlSettings :=
  { max_rate := 1000, abs_acceleration := 2000, rate_tolerance := 5
    count_tolerance := 3, stall_rate_limit := 2, stall_time := 200
    pid_kp := 200, pid_ki := 100, pid_kd := 0, integral_range := 45
    integral_rate := 3, max_control := 10000, control_offset := 0
    counts_per_unit := 0 }

/-- load_servo_settings from servo.c: the three named device types get
their dedicated settings and every other identifier falls back to
settings_servo_default. -/
def load_servo_settings (id : IodevTypeId) : ControlSettings :=
  match id with
  | IodevTypeId.EV3_MEDIUM_MOTOR => settings_servo_ev3_medium
  | IodevTypeId.EV3_LARGE_MOTOR => settings_servo_ev3_large
  | IodevTypeId.MOVE_HUB_MOTOR => settings_servo_move_hub
  | _ => settings_servo_default

/-- Control types of the servo control loop. -/
inductive ControlType where
  | NONE
  | ANGLE
  | TIMED
deriving DecidableEq, Repr

/-- The part of the control state (pbio_control_t) that the servo facade
inspects and changes: the active control type, the on-target flag, and the
count target of an active hold control. -/
structure ServoControl where
  type : ControlType
  on_target : Bool
  target : Int
deriving DecidableEq, Repr

/-- Modelled from the spec: pbio_control_stop (control.c is not among the
sources); stopping control makes the control type NONE. -/
def pbio_control_stop (c : ServoControl) : ServoControl :=
  { c with type := ControlType.NONE }

/-- Modelled from the spec: pbio_control_start_hold_control (control.c is
not among the sources); hold restarts control as an on-target ANGLE
control pinned at the given target. -/
def pbio_control_start_hold_control (c : ServoControl) (target : Int) : ServoControl :=
  { c with type := ControlType.ANGLE, on_target := true, target := target }

/-- Outcomes of the fallible driver and control calls that
pbio_servo_actuate can issue, abstracted as environment inputs. -/
structure DriverOutcome where
  coast : PbioError
  brake : PbioError
  hold_start : PbioError
  duty : PbioError
deriving DecidableEq, Repr

/-- pbio_servo_actuate from servo.c: dispatch on the actuation type, and on
any error stop the control loop and attempt the lowest-level coast before
returning the error. Result: (returned error, control state, whether the
lowest-level pbdrv_motor_coast was attempted). -/
def pbio_servo_actuate (ctl : ServoControl) (drv : DriverOutcome)
    (actuation_type : Actuation) (control : Int) : PbioError × ServoControl × Bool :=
  let step : PbioError × ServoControl :=
    match actuation_type with
    | Actuation.COAST => (drv.coast, ctl)
    | Actuation.BRAKE => (drv.brake, ctl)
    | Actuation.HOLD =>
      (drv.hold_start,
        if drv.hold_start = PbioError.SUCCESS then
          pbio_control_start_hold_control ctl control
        else ctl)
    | Actuation.DUTY => (drv.duty, ctl)
  if step.1 ≠ PbioError.SUCCESS then
    (step.1, pbio_control_stop step.2, true)
  else
    (step.1, step.2, false)

/-- pbio_servo_stop from servo.c: for HOLD, the payload is the current
tacho count; otherwise the payload is zero and control stops; then the
after_stop actuation is applied through pbio_servo_actuate. -/
def pbio_servo_stop (ctl : ServoControl) (drv : DriverOutcome)
    (after_stop : Actuation) (tacho_count : PbioError × Int) : PbioError × ServoControl × Bool :=
  if after_stop = Actuation.HOLD then
    if tacho_count.1 ≠ PbioError.SUCCESS then (tacho_count.1, ctl, false)
    else pbio_servo_actuate ctl drv Actuation.HOLD tacho_count.2
  else
    pbio_servo_actuate (pbio_control_stop ctl) drv after_stop 0

/-- pbio_servo_set_duty_cycle from servo.c: stop the control loop, then
delegate to the DC driver and return its error. Result: (returned error,
control state after the call). -/
def pbio_servo_set_duty_cycle (ctl : ServoControl) (duty_err : PbioError) : PbioError × ServoControl :=
  (duty_err, pbio_control_stop ctl)

/-- Environment inputs for pbio_servo_reset_angle: the results of the
tacho and trajectory reads it performs. `target_old` is the user-unit
value that pbio_control_get_ref_time, pbio_trajectory_get_reference and
pbio_control_counts_to_user produce for the holding control. -/
structure ResetAngleEnv where
  angle_old_err : PbioError
  angle_old : Int
  target_old : Int
  tacho_reset_err : PbioError
  track_err : PbioError
deriving DecidableEq, Repr

/-- Result of pbio_servo_reset_angle: returned error, control state, and
the observable effects (whether the tacho angle reset completed, whether a
coast stop was issued first, and the user-unit target passed on to
pbio_servo_track_target, when any). -/
structure ResetAngleResult where
  err : PbioError
  ctl : ServoControl
  tacho_reset_done : Bool
  coasted : Bool
  tracked : Option Int
deriving DecidableEq, Repr

/-- pbio_servo_reset_angle from servo.c: case split on the control state.
If holding (ANGLE and on-target): read the old angle and old target, reset
the tacho, and track the target new_angle + target_old - angle_old, where
pbio_servo_track_target is modelled from the spec as restarting hold
control at that target. If passive (NONE): only reset the tacho. Otherwise
stop by coasting, then reset the tacho. -/
def pbio_servo_reset_angle (ctl : ServoControl) (env : ResetAngleEnv)
    (drv : DriverOutcome) (reset_angle : Int) : ResetAngleResult :=
  if ctl.type = ControlType.ANGLE ∧ ctl.on_target = true then
    if env.angle_old_err ≠ PbioError.SUCCESS then
      { err := env.angle_old_err, ctl := ctl, tacho_reset_done := false
        coasted := false, tracked := none }
    else if env.tacho_reset_err ≠ PbioError.SUCCESS then
      { err := env.tacho_reset_err, ctl := ctl, tacho_reset_done := false
        coasted := false, tracked := none }
    else
      let new_target := reset_angle + env.target_old - env.angle_old
      { err := env.track_err
        ctl := if env.track_err = PbioError.SUCCESS then
            pbio_control_start_hold_control ctl new_target
          else ctl
        tacho_reset_done := true, coasted := false, tracked := some new_target }
  else if ctl.type = ControlType.NONE then
    { err := env.tacho_reset_err, ctl := ctl
      tacho_reset_done := env.tacho_reset_err = PbioError.SUCCESS
      coasted := false, tracked := none }
  else
    let s := pbio_servo_stop ctl drv Actuation.COAST (PbioError.SUCCESS, 0)
    if s.1 ≠ PbioError.SUCCESS then
      { err := s.1, ctl := s.2.1, tacho_reset_done := false
        coasted := true, tracked := none }
    else
      { err := env.tacho_reset_err, ctl := s.2.1
        tacho_reset_done := env.tacho_reset_err = PbioError.SUCCESS
        coasted := true, tracked := none }

/-- One servo table entry: the parts of pbio_servo_t that pbio_servo_get
touches. -/
structure ServoEntry where
  port : Int
  connected : Bool
  id : IodevTypeId
  settings : ControlSettings
  ctl : ServoControl
deriving DecidableEq, Repr

/-- Outcomes of the driver acquisitions performed by pbio_servo_setup:
the DC motor driver handle (with the motor type id it reports) and the
tacho handle. -/
structure SetupOutcome where
  dc_err : PbioError
  dc_id : IodevTypeId
  tacho_err : PbioError
deriving DecidableEq, Repr

/-- pbio_servo_setup from servo.c: acquire the DC motor driver and the
tacho, stop control, load the settings for the reported motor type, and
set counts_per_unit from the gear ratio (counts per degree is 1 here, so
the fix16 product reduces to the gear ratio itself). -/
def pbio_servo_setup (e : ServoEntry) (gear_ratio : Int) (drv : SetupOutcome) : PbioError × ServoEntry :=
  if drv.dc_err ≠ PbioError.SUCCESS then (drv.dc_err, e)
  else if drv.tacho_err ≠ PbioError.SUCCESS then (drv.tacho_err, e)
  else
    (PbioError.SUCCESS,
      { e with
        id := drv.dc_id
        ctl := pbio_control_stop e.ctl
        settings := { load_servo_settings drv.dc_id with counts_per_unit := gear_ratio } })

/-- pbio_servo_get from servo.c: reject ports outside
[first_port, last_port] with INVALID_PORT, otherwise run setup on the
table entry for the port and mark it connected exactly when setup
succeeded. Result: (returned error, updated servo table). -/
def pbio_servo_get (table : Int → ServoEntry) (first_port last_port : Int)
    (port : Int) (gear_ratio : Int) (drv : SetupOutcome) : PbioError × (Int → ServoEntry) :=
  if port < first_port ∨ port > last_port then
    (PbioError.INVALID_PORT, table)
  else
    let e1 := { table (port - first_port) with port := port }
    let res := pbio_servo_setup e1 gear_ratio drv
    let e2 := if res.1 = PbioError.SUCCESS then { res.2 with connected := true } else res.2
    (res.1, fun i => if i = port - first_port then e2 else table i)

/-- A servo table entry in its zero-like initial state, used for concrete
instantiations. -/
def entry_init : ServoEntry :=
  { port := 0, connected := false, id := IodevTypeId.NONE
    settings := settings_servo_default
    ctl := { type := ControlType.NONE, on_target := false, target := 0 } }

theorem update_stall_state_angle (obs : Observer) (t v fb : Int) :
    (update_stall_state obs t v fb).angle = obs.angle := by
  simp only [update_stall_state]
  split_ifs <;> rfl

theorem update_stall_state_speed (obs : Observer) (t v fb : Int) :
    (update_stall_state obs t v fb).speed = obs.speed := by
  simp only [update_stall_state]
  split_ifs <;> rfl

theorem update_stall_state_current (obs : Observer) (t v fb : Int) :
    (update_stall_state obs t v fb).current = obs.current := by
  simp only [update_stall_state]
  split_ifs <;> rfl

theorem update_stall_state_offset (obs : Observer) (t v fb : Int) :
    (update_stall_state obs t v fb).angle_offset = obs.angle_offset := by
  simp only [update_stall_state]
  split_ifs <;> rfl

theorem observer_update_stalled (m : ObserverModel) (obs : Observer) (u : ObsInput) :
    (pbio_observer_update m obs u).stalled =
      (update_stall_state obs u.time u.voltage (observer_feedback_voltage m obs u.count)).stalled := by
  simp only [pbio_observer_update]
  split_ifs <;> rfl

theorem observer_update_stall_start (m : ObserverModel) (obs : Observer) (u : ObsInput) :
    (pbio_observer_update m obs u).stall_start =
      (update_stall_state obs u.time u.voltage (observer_feedback_voltage m obs u.count)).stall_start := by
  simp only [pbio_observer_update]
  split_ifs <;> rfl

theorem update_stall_state_start_of_true (obs : Observer) (t v fb : Int)
    (hprev : obs.stalled = true)
    (hnow : (update_stall_state obs t v fb).stalled = true) :
    (update_stall_state obs t v fb).stall_start = obs.stall_start := by
  simp only [update_stall_state] at hnow ⊢
  split_ifs at hnow ⊢ <;> simp_all

theorem update_stall_state_start_of_false (obs : Observer) (t v fb : Int)
    (hprev : obs.stalled = false)
    (hnow : (update_stall_state obs t v fb).stalled = true) :
    (update_stall_state obs t v fb).stall_start = t := by
  simp only [update_stall_state] at hnow ⊢
  split_ifs at hnow ⊢ <;> simp_all

theorem step_stall_start_of_true (m : ObserverModel) (obs : Observer) (u : ObsInput)
    (hprev : obs.stalled = true)
    (hnow : (pbio_observer_update m obs u).stalled = true) :
    (pbio_observer_update m obs u).stall_start = obs.stall_start := by
  rw [observer_update_stall_start]
  rw [observer_update_stalled] at hnow
  exact update_stall_state_start_of_true obs u.time u.voltage _ hprev hnow

theorem step_stall_start_of_false (m : ObserverModel) (obs : Observer) (u : ObsInput)
    (hprev : obs.stalled = false)
    (hnow : (pbio_observer_update m obs u).stalled = true) :
    (pbio_observer_update m obs u).stall_start = u.time := by
  rw [observer_update_stall_start]
  rw [observer_update_stalled] at hnow
  exact update_stall_state_start_of_false obs u.time u.voltage _ hprev hnow

theorem runObs_nil (m : ObserverModel) (obs : Observer) : runObs m obs [] = obs := rfl

theorem runObs_cons (m : ObserverModel) (obs : Observer) (u : ObsInput) (rest : List ObsInput) :
    runObs m obs (u :: rest) = runObs m (pbio_observer_update m obs u) rest := rfl

/-- If the stall flag is set after a run, then either it was set from the
start and stayed set through every update with the start timestamp kept, or
there was a rising edge: a decomposition of the run at an update whose
predecessor state was not stalled, whose time is the recorded stall_start,
and since which the flag stayed set through every update. -/
theorem stalled_continuity (m : ObserverModel) :
    ∀ (us : List ObsInput) (obs : Observer),
      (runObs m obs us).stalled = true →
      (obs.stalled = true ∧ (runObs m obs us).stall_start = obs.stall_start ∧
        allStalled m obs us = true) ∨
      (∃ pre u post, us = pre ++ u :: post ∧ (runObs m obs pre).stalled = false ∧
        (runObs m obs us).stall_start = u.time ∧
        allStalled m (runObs m obs pre) (u :: post) = true) := by
  intro us
  induction us with
  | nil =>
    intro obs h
    exact Or.inl ⟨h, rfl, rfl⟩
  | cons u rest ih =>
    intro obs h
    rw [runObs_cons] at h
    rcases ih (pbio_observer_update m obs u) h with ⟨h1, h2, h3⟩ | ⟨pre, u', post, heq, h1, h2, h3⟩
    · cases hprev : obs.stalled with
      | true =>
        refine Or.inl ⟨rfl, ?_, ?_⟩
        · rw [runObs_cons, h2]
          exact step_stall_start_of_true m obs u hprev h1
        · simp only [allStalled, h1, h3, Bool.and_self]
      | false =>
        refine Or.inr ⟨[], u, rest, rfl, ?_, ?_, ?_⟩
        · exact hprev
        · rw [runObs_cons, h2]
          exact step_stall_start_of_false m obs u hprev h1
        · simp only [runObs_nil, allStalled, h1, h3, Bool.and_self]
    · refine Or.inr ⟨u :: pre, u', post, by simp [heq], ?_, ?_, ?_⟩
      · rw [runObs_cons]
        exact h1
      · rw [runObs_cons]
        exact h2
      · rw [runObs_cons]
        exact h3

theorem observer_update_angle (m : ObserverModel) (obs : Observer) (u : ObsInput) :
    (pbio_observer_update m obs u).angle =
      (if observer_pre_norm_angle m obs u > MDEG_MAX then
        observer_pre_norm_angle m obs u - MDEG_MAX
      else if observer_pre_norm_angle m obs u < -MDEG_MAX then
        observer_pre_norm_angle m obs u + MDEG_MAX
      else observer_pre_norm_angle m obs u) := by
  simp only [pbio_observer_update, observer_pre_norm_angle, observer_angle_next,
    update_stall_state_angle, update_stall_state_speed, update_stall_state_current]
  split_ifs <;> rfl

theorem observer_update_offset (m : ObserverModel) (obs : Observer) (u : ObsInput) :
    (pbio_observer_update m obs u).angle_offset =
      obs.angle_offset +
        (if observer_pre_norm_angle m obs u > MDEG_MAX then MDEG_MAX.tdiv MDEG_PER_DEG
        else if observer_pre_norm_angle m obs u < -MDEG_MAX then -(MDEG_MAX.tdiv MDEG_PER_DEG)
        else 0) := by
  simp only [pbio_observer_update, observer_pre_norm_angle, observer_angle_next,
    update_stall_state_angle, update_stall_state_speed, update_stall_state_current,
    update_stall_state_offset]
  split_ifs <;> simp [update_stall_state_offset] <;> ring

theorem tdiv_shift_pos (a : Int) (h : 1000000000 < a) :
    (a - 1000000000).tdiv 1000 = a.tdiv 1000 - 1000000 := by
  have h1 : (0:Int) ≤ a - 1000000000 := by omega
  have h2 : (0:Int) ≤ a := by omega
  rw [Int.tdiv_eq_ediv h1 (by norm_num), Int.tdiv_eq_ediv h2 (by norm_num)]
  have e : a - 1000000000 = a + (-1000000) * 1000 := by ring
  rw [e, Int.add_mul_ediv_right _ _ (by norm_num : (1000:Int) ≠ 0)]
  ring

theorem tdiv_shift_neg (a : Int) (h : a < -1000000000) :
    (a + 1000000000).tdiv 1000 = a.tdiv 1000 + 1000000 := by
  have h2 : (1000000000:Int) < -a := by omega
  have e : a + 1000000000 = -(-a - 1000000000) := by ring
  rw [e, Int.neg_tdiv, tdiv_shift_pos (-a) h2]
  have e2 : a = -(-a) := by ring
  rw [e2, Int.neg_tdiv]
  ring

theorem step_angle_bounded (m : ObserverModel) (obs : Observer) (u : ObsInput)
    (h1 : -(2 * MDEG_MAX) ≤ observer_pre_norm_angle m obs u)
    (h2 : observer_pre_norm_angle m obs u ≤ 2 * MDEG_MAX) :
    -MDEG_MAX ≤ (pbio_observer_update m obs u).angle ∧
      (pbio_observer_update m obs u).angle ≤ MDEG_MAX := by
  have hM : MDEG_MAX = 1000000000 := by norm_num [MDEG_MAX, MDEG_PER_DEG]
  rw [observer_update_angle]
  rw [hM] at h1 h2 ⊢
  split_ifs with hA hB <;> omega

theorem step_reported_count (m : ObserverModel) (obs : Observer) (u : ObsInput) :
    (pbio_observer_update m obs u).angle_offset +
        (pbio_observer_update m obs u).angle.tdiv MDEG_PER_DEG =
      obs.angle_offset + (observer_pre_norm_angle m obs u).tdiv MDEG_PER_DEG := by
  have hM : MDEG_MAX = 1000000000 := by norm_num [MDEG_MAX, MDEG_PER_DEG]
  have hD : MDEG_PER_DEG = 1000 := rfl
  have hMd : MDEG_MAX.tdiv MDEG_PER_DEG = 1000000 := by decide
  rw [observer_update_angle, observer_update_offset, hMd, hD]
  split_ifs with hA hB
  · rw [hM] at hA ⊢
    rw [tdiv_shift_pos _ hA]
    ring
  · rw [hM] at hB ⊢
    rw [tdiv_shift_neg _ hB]
    ring
  · ring

theorem term_bound (a b : Int) (ha : |a| ≤ 2147483647) (hb : 100000 ≤ |b|) :
    |a.tdiv b| ≤ 21474 := by
  have ha2 : a.natAbs ≤ 2147483647 := by
    rw [Int.abs_eq_natAbs] at ha
    exact_mod_cast ha
  have hb2 : 100000 ≤ b.natAbs := by
    rw [Int.abs_eq_natAbs] at hb
    exact_mod_cast hb
  have h := Nat.div_le_div ha2 hb2 (by norm_num)
  have h2 : (a.tdiv b).natAbs ≤ 21474 := by
    rw [Int.natAbs_tdiv]
    exact le_trans h (by norm_num)
  rw [Int.abs_eq_natAbs]
  exact_mod_cast h2

theorem pre_norm_abs (m : ObserverModel) (obs : Observer) (u : ObsInput)
    (hm1 : 100000 ≤ |m.d_angle_d_speed|) (hm2 : 100000 ≤ |m.d_angle_d_current|)
    (hm3 : 100000 ≤ |m.d_angle_d_voltage|) (hm4 : 100000 ≤ |m.d_angle_d_torque|)
    (h : angle_terms_int32 m obs u = true) :
    |observer_pre_norm_angle m obs u| ≤ |obs.angle| + 85896 := by
  simp only [angle_terms_int32, Bool.and_eq_true, decide_eq_true_eq] at h
  obtain ⟨⟨⟨h1, h2⟩, h3⟩, h4⟩ := h
  have b1 := term_bound _ _ h1 hm1
  have b2 := term_bound _ _ h2 hm2
  have b3 := term_bound _ _ h3 hm3
  have b4 := term_bound _ _ h4 hm4
  simp only [observer_pre_norm_angle, observer_angle_next]
  set A := (PRESCALE_SPEED * obs.speed).tdiv m.d_angle_d_speed with hA
  set B := (PRESCALE_CURRENT * obs.current).tdiv m.d_angle_d_current with hB
  set C := (PRESCALE_VOLTAGE *
    (u.voltage + observer_feedback_voltage m obs u.count)).tdiv m.d_angle_d_voltage with hC
  set D := (PRESCALE_TORQUE * observer_friction_torque m obs.speed).tdiv m.d_angle_d_torque with hD
  calc |obs.angle + A + B + C + D|
      ≤ |obs.angle + A + B + C| + |D| := abs_add _ _
    _ ≤ |obs.angle + A + B| + |C| + |D| := by
        have := abs_add (obs.angle + A + B) C
        linarith
    _ ≤ |obs.angle + A| + |B| + |C| + |D| := by
        have := abs_add (obs.angle + A) B
        linarith
    _ ≤ |obs.angle| + |A| + |B| + |C| + |D| := by
        have := abs_add obs.angle A
        linarith
    _ ≤ |obs.angle| + 85896 := by linarith

theorem int32_run_angle (m : ObserverModel)
    (hm1 : 100000 ≤ |m.d_angle_d_speed|) (hm2 : 100000 ≤ |m.d_angle_d_current|)
    (hm3 : 100000 ≤ |m.d_angle_d_voltage|) (hm4 : 100000 ≤ |m.d_angle_d_torque|) :
    ∀ (us : List ObsInput) (obs : Observer),
      -MDEG_MAX ≤ obs.angle → obs.angle ≤ MDEG_MAX →
      overflowFreeRun m obs us = true →
      -MDEG_MAX ≤ (runObs m obs us).angle ∧ (runObs m obs us).angle ≤ MDEG_MAX := by
  intro us
  induction us with
  | nil => intro obs h1 h2 _; exact ⟨h1, h2⟩
  | cons u rest ih =>
    intro obs h1 h2 hb
    simp only [overflowFreeRun, Bool.and_eq_true] at hb
    obtain ⟨hstep, hrest⟩ := hb
    have habs := pre_norm_abs m obs u hm1 hm2 hm3 hm4 hstep
    have hM : MDEG_MAX = 1000000000 := by norm_num [MDEG_MAX, MDEG_PER_DEG]
    have hangle : |obs.angle| ≤ 1000000000 := abs_le.mpr ⟨by omega, by omega⟩
    have hpre : |observer_pre_norm_angle m obs u| ≤ 2 * MDEG_MAX := by
      rw [hM]
      linarith
    obtain ⟨hp1, hp2⟩ := abs_le.mp hpre
    rw [runObs_cons]
    obtain ⟨g1, g2⟩ := step_angle_bounded m obs u hp1 hp2
    exact ih (pbio_observer_update m obs u) g1 g2 hrest

/-- Every observer model compiled into servo_settings.c has all four angle
row coefficients of magnitude at least 100000, the bound under which one
int32-bounded product contributes at most 21474 millidegrees per tick. -/
theorem all_models_angle_coeff_bounds :
    (100000 ≤ |model_technic_s_angular.d_angle_d_speed| ∧
      100000 ≤ |model_technic_s_angular.d_angle_d_current| ∧
      100000 ≤ |model_technic_s_angular.d_angle_d_voltage| ∧
      100000 ≤ |model_technic_s_angular.d_angle_d_torque|) ∧
    (100000 ≤ |model_technic_m_angular.d_angle_d_speed| ∧
      100000 ≤ |model_technic_m_angular.d_angle_d_current| ∧
      100000 ≤ |model_technic_m_angular.d_angle_d_voltage| ∧
      100000 ≤ |model_technic_m_angular.d_angle_d_torque|) ∧
    (100000 ≤ |model_technic_l_angular.d_angle_d_speed| ∧
      100000 ≤ |model_technic_l_angular.d_angle_d_current| ∧
      100000 ≤ |model_technic_l_angular.d_angle_d_voltage| ∧
      100000 ≤ |model_technic_l_angular.d_angle_d_torque|) ∧
    (100000 ≤ |model_interactive.d_angle_d_speed| ∧
      100000 ≤ |model_interactive.d_angle_d_current| ∧
      100000 ≤ |model_interactive.d_angle_d_voltage| ∧
      100000 ≤ |model_interactive.d_angle_d_torque|) ∧
    (100000 ≤ |model_technic_l.d_angle_d_speed| ∧
      100000 ≤ |model_technic_l.d_angle_d_current| ∧
      100000 ≤ |model_technic_l.d_angle_d_voltage| ∧
      100000 ≤ |model_technic_l.d_angle_d_torque|) ∧
    (100000 ≤ |model_technic_xl.d_angle_d_speed| ∧
      100000 ≤ |model_technic_xl.d_angle_d_current| ∧
      100000 ≤ |model_technic_xl.d_angle_d_voltage| ∧
      100000 ≤ |model_technic_xl.d_angle_d_torque|) ∧
    (100000 ≤ |model_movehub.d_angle_d_speed| ∧
      100000 ≤ |model_movehub.d_angle_d_current| ∧
      100000 ≤ |model_movehub.d_angle_d_voltage| ∧
      100000 ≤ |model_movehub.d_angle_d_torque|) ∧
    (100000 ≤ |model_ev3_l.d_angle_d_speed| ∧
      100000 ≤ |model_ev3_l.d_angle_d_current| ∧
      100000 ≤ |model_ev3_l.d_angle_d_voltage| ∧
      100000 ≤ |model_ev3_l.d_angle_d_torque|) ∧
    (100000 ≤ |model_ev3_m.d_angle_d_speed| ∧
      100000 ≤ |model_ev3_m.d_angle_d_current| ∧
      100000 ≤ |model_ev3_m.d_angle_d_voltage| ∧
      100000 ≤ |model_ev3_m.d_angle_d_torque|) := by
  decide

/-- C1: for every observer state and every update call, the per-tick stall
predicate holds exactly when, after flipping the signs of speed, applied
voltage and feedback voltage whenever the applied voltage is negative, the
flipped speed is below 50·MDEG_PER_DEG, the flipped feedback voltage is
negative, and its negation exceeds half the flipped applied voltage; on the
rising edge (stalled previously false) stall_start is set to the current
time, and whenever the predicate is false the stalled flag is cleared.
The last conjunct ties pbio_observer_update's stall fields to
update_stall_state called with the computed feedback voltage. -/
theorem C1_stall_predicate (m : ObserverModel) (obs : Observer) (u : ObsInput)
    (time voltage feedback_voltage : Int) :
    ((update_stall_state obs time voltage feedback_voltage).stalled = true ↔
      ((if voltage < 0 then -obs.speed else obs.speed) < 50 * MDEG_PER_DEG ∧
        (if voltage < 0 then -feedback_voltage else feedback_voltage) < 0 ∧
        -(if voltage < 0 then -feedback_voltage else feedback_voltage) >
          (if voltage < 0 then -voltage else voltage).tdiv 2)) ∧
    (obs.stalled = false →
      (update_stall_state obs time voltage feedback_voltage).stalled = true →
      (update_stall_state obs time voltage feedback_voltage).stall_start = time) ∧
    (¬((if voltage < 0 then -obs.speed else obs.speed) < 50 * MDEG_PER_DEG ∧
        (if voltage < 0 then -feedback_voltage else feedback_voltage) < 0 ∧
        -(if voltage < 0 then -feedback_voltage else feedback_voltage) >
          (if voltage < 0 then -voltage else voltage).tdiv 2) →
      (update_stall_state obs time voltage feedback_voltage).stalled = false) ∧
    (pbio_observer_update m obs u).stalled =
      (update_stall_state obs u.time u.voltage (observer_feedback_voltage m obs u.count)).stalled ∧
    (pbio_observer_update m obs u).stall_start =
      (update_stall_state obs u.time u.voltage (observer_feedback_voltage m obs u.count)).stall_start := by
  refine ⟨?_, ?_, ?_, observer_update_stalled m obs u, observer_update_stall_start m obs u⟩
  · simp only [update_stall_state]
    split_ifs <;> simp_all
  · exact update_stall_state_start_of_false obs time voltage feedback_voltage
  · intro hn
    simp only [update_stall_state]
    rw [if_neg hn]

/-- Witness for C1 at a concrete input: a non-stalled observer at rest with
applied voltage 3 and feedback voltage -2 takes the rising edge and records
the time. -/
theorem C1_stall_predicate_witness :
    (update_stall_state obs_init 5 3 (-2)).stall_start = 5 :=
  (C1_stall_predicate model_technic_l obs_init
    { time := 0, count := 0, actuation := Actuation.DUTY, voltage := 0 }
    5 3 (-2)).2.1 rfl (by decide)

/-- C2: after any run of updates, pbio_observer_is_stalled reports true only
when the stalled flag is set and more than stall_time (200 ms in µs) has
passed since stall_start; the flag being set means it was set continuously
(the stall predicate held at every update) since the recorded stall_start;
on true the reported duration is (t - stall_start) in ms, on false it is 0. -/
theorem C2_stall_timing (m : ObserverModel) (obs : Observer) (us : List ObsInput) (t : Int) :
    ((pbio_observer_is_stalled (runObs m obs us) t).1 = true →
      (runObs m obs us).stalled = true ∧
      200 * US_PER_MS < t - (runObs m obs us).stall_start ∧
      (pbio_observer_is_stalled (runObs m obs us) t).2 =
        (t - (runObs m obs us).stall_start).tdiv US_PER_MS ∧
      ((obs.stalled = true ∧ (runObs m obs us).stall_start = obs.stall_start ∧
          allStalled m obs us = true) ∨
        (∃ pre u post, us = pre ++ u :: post ∧ (runObs m obs pre).stalled = false ∧
          (runObs m obs us).stall_start = u.time ∧
          allStalled m (runObs m obs pre) (u :: post) = true))) ∧
    ((pbio_observer_is_stalled (runObs m obs us) t).1 = false →
      (pbio_observer_is_stalled (runObs m obs us) t).2 = 0) := by
  constructor
  · intro h
    have hcond : (runObs m obs us).stalled = true ∧
        200 * US_PER_MS < t - (runObs m obs us).stall_start := by
      by_contra hc
      simp only [pbio_observer_is_stalled] at h
      rw [if_neg hc] at h
      simp at h
    refine ⟨hcond.1, hcond.2, ?_, stalled_continuity m us obs hcond.1⟩
    simp only [pbio_observer_is_stalled, if_pos hcond]
  · intro h
    simp only [pbio_observer_is_stalled] at h ⊢
    split_ifs at h ⊢
    simp_all

/-- Witness for C2 at a concrete input: the empty run from the initial
observer is not stalled and reports duration 0. -/
theorem C2_stall_timing_witness :
    (pbio_observer_is_stalled (runObs model_technic_l obs_init []) 0).2 = 0 :=
  (C2_stall_timing model_technic_l obs_init [] 0).2 (by decide)

/-- C3: for any sequence of updates from a reset state, as long as each
update's angle-row products stay within int32 (the executions the C
abstract machine defines; outside it the signed arithmetic of observer.c
is undefined behavior) and the model's four angle-row coefficients have
magnitude at least 100000 (true of every model table compiled into
servo_settings.c, see all_models_angle_coeff_bounds, so each product
contributes at most 21474 millidegrees per tick and one wrap always
suffices), the internal angle always satisfies |angle| ≤ MDEG_MAX; and
unconditionally, the reported absolute count angle_offset +
angle/MDEG_PER_DEG after an update equals the pre-normalization reported
count, so the normalization step itself never changes the reported count
(discontinuity 0, in particular never more than 1 count). -/
theorem C3_range_normalization (m : ObserverModel) (c : Int) (us : List ObsInput)
    (obs : Observer) (u : ObsInput)
    (hm1 : 100000 ≤ |m.d_angle_d_speed|) (hm2 : 100000 ≤ |m.d_angle_d_current|)
    (hm3 : 100000 ≤ |m.d_angle_d_voltage|) (hm4 : 100000 ≤ |m.d_angle_d_torque|)
    (h : overflowFreeRun m (pbio_observer_reset obs_init c) us = true) :
    (-MDEG_MAX ≤ (runObs m (pbio_observer_reset obs_init c) us).angle ∧
      (runObs m (pbio_observer_reset obs_init c) us).angle ≤ MDEG_MAX) ∧
    (pbio_observer_update m obs u).angle_offset +
        (pbio_observer_update m obs u).angle.tdiv MDEG_PER_DEG =
      obs.angle_offset + (observer_pre_norm_angle m obs u).tdiv MDEG_PER_DEG := by
  refine ⟨int32_run_angle m hm1 hm2 hm3 hm4 us _ ?_ ?_ h, step_reported_count m obs u⟩
  · norm_num [pbio_observer_reset, MDEG_MAX, MDEG_PER_DEG]
  · norm_num [pbio_observer_reset, MDEG_MAX, MDEG_PER_DEG]

/-- Witness for C3 at a concrete input: the Technic L model satisfies the
coefficient bounds, a one-update run with measured count 3 stays in the
int32 regime, keeps |angle| ≤ MDEG_MAX, and the reported count is unchanged
by normalization. -/
theorem C3_range_normalization_witness :
    (100000 ≤ |model_technic_l.d_angle_d_speed| ∧
      100000 ≤ |model_technic_l.d_angle_d_current| ∧
      100000 ≤ |model_technic_l.d_angle_d_voltage| ∧
      100000 ≤ |model_technic_l.d_angle_d_torque| ∧
      overflowFreeRun model_technic_l (pbio_observer_reset obs_init 0)
        [{ time := 0, count := 3, actuation := Actuation.DUTY, voltage := 0 }] = true) ∧
    ((-MDEG_MAX ≤ (runObs model_technic_l (pbio_observer_reset obs_init 0)
          [{ time := 0, count := 3, actuation := Actuation.DUTY, voltage := 0 }]).angle ∧
        (runObs model_technic_l (pbio_observer_reset obs_init 0)
          [{ time := 0, count := 3, actuation := Actuation.DUTY, voltage := 0 }]).angle ≤ MDEG_MAX) ∧
      (pbio_observer_update model_technic_l obs_init
            { time := 0, count := 3, actuation := Actuation.DUTY, voltage := 0 }).angle_offset +
          (pbio_observer_update model_technic_l obs_init
            { time := 0, count := 3, actuation := Actuation.DUTY, voltage := 0 }).angle.tdiv MDEG_PER_DEG =
        obs_init.angle_offset +
          (observer_pre_norm_angle model_technic_l obs_init
            { time := 0, count := 3, actuation := Actuation.DUTY, voltage := 0 }).tdiv MDEG_PER_DEG) :=
  ⟨⟨by decide, by decide, by decide, by decide, by decide⟩,
    C3_range_normalization model_technic_l 0
      [{ time := 0, count := 3, actuation := Actuation.DUTY, voltage := 0 }]
      obs_init { time := 0, count := 3, actuation := Actuation.DUTY, voltage := 0 }
      (by decide) (by decide) (by decide) (by decide) (by decide)⟩

/-- C4: immediately after reset(c) the estimated state is (c, 0) with
counts-per-degree 1, angle_offset is c divided by counts-per-degree, angle,
speed, current and the stalled flag are zeroed, is_stalled reports
(false, 0) at every time, and after any further run of updates is_stalled
can report true only once a stall rising edge has occurred. -/
theorem C4_reset (obs : Observer) (c t : Int) (m : ObserverModel) (us : List ObsInput) :
    pbio_observer_get_estimated_state (pbio_observer_reset obs c) = (c, 0) ∧
    pbio_observer_is_stalled (pbio_observer_reset obs c) t = (false, 0) ∧
    (pbio_observer_reset obs c).angle_offset = c.tdiv COUNTS_PER_DEGREE ∧
    (pbio_observer_reset obs c).angle = 0 ∧
    (pbio_observer_reset obs c).speed = 0 ∧
    (pbio_observer_reset obs c).current = 0 ∧
    (pbio_observer_reset obs c).stalled = false ∧
    ((pbio_observer_is_stalled (runObs m (pbio_observer_reset obs c) us) t).1 = true →
      ∃ pre u post, us = pre ++ u :: post ∧
        (runObs m (pbio_observer_reset obs c) pre).stalled = false ∧
        (pbio_observer_update m (runObs m (pbio_observer_reset obs c) pre) u).stalled = true) := by
  refine ⟨?_, ?_, rfl, rfl, rfl, rfl, rfl, ?_⟩
  · simp [pbio_observer_get_estimated_state, pbio_observer_reset, COUNTS_PER_DEGREE,
      MDEG_PER_DEG, Int.tdiv_one, Int.zero_tdiv]
  · simp [pbio_observer_is_stalled, pbio_observer_reset]
  · intro h
    have hst : (runObs m (pbio_observer_reset obs c) us).stalled = true := by
      by_contra hc
      simp only [pbio_observer_is_stalled] at h
      rw [if_neg (fun hand => hc hand.1)] at h
      simp at h
    rcases stalled_continuity m us (pbio_observer_reset obs c) hst with
      ⟨h1, _, _⟩ | ⟨pre, u, post, heq, hfalse, _, hall⟩
    · simp [pbio_observer_reset] at h1
    · simp only [allStalled, Bool.and_eq_true] at hall
      exact ⟨pre, u, post, heq, hfalse, hall.1⟩

/-- Witness for C4 at a concrete input: resetting at count 360 reports
estimated state (360, 0). -/
theorem C4_reset_witness :
    pbio_observer_get_estimated_state (pbio_observer_reset obs_init 360) = (360, 0) :=
  (C4_reset obs_init 360 0 model_technic_l []).1

/-- Counterexample to C5 as stated: with the Technic L model, at speed
exactly zero the modeled friction torque used by the observer update is
-torque_friction = -26430, while sign(0)·torque_friction = 0; the two
differ. -/
theorem C5_counterexample :
    observer_friction_torque model_technic_l 0 = -26430 ∧
    pbio_math_sign 0 * model_technic_l.torque_friction = 0 ∧
    observer_friction_torque model_technic_l 0 ≠
      pbio_math_sign 0 * model_technic_l.torque_friction := by
  refine ⟨rfl, rfl, by decide⟩

/-- C5 (amended): the modeled friction torque equals torque_friction for
positive speed and -torque_friction otherwise; it agrees with
sign(speed)·torque_friction for every nonzero speed, but at speed exactly
zero it is -torque_friction, not zero. -/
theorem C5_friction_torque (m : ObserverModel) (s : Int) :
    (0 < s → observer_friction_torque m s = m.torque_friction) ∧
    (¬0 < s → observer_friction_torque m s = -m.torque_friction) ∧
    (s ≠ 0 → observer_friction_torque m s = pbio_math_sign s * m.torque_friction) := by
  refine ⟨?_, ?_, ?_⟩
  · intro h
    simp [observer_friction_torque, h]
  · intro h
    simp [observer_friction_torque, h]
  · intro h
    rcases lt_trichotomy s 0 with hlt | heq | hgt
    · have hn : ¬0 < s := not_lt.mpr hlt.le
      simp [observer_friction_torque, pbio_math_sign, hn, hlt]
    · exact absurd heq h
    · simp [observer_friction_torque, pbio_math_sign, hgt]

/-- Witness for C5 at a concrete input: at speed 5 the friction torque is
torque_friction itself. -/
theorem C5_friction_torque_witness :
    observer_friction_torque model_technic_l 5 = model_technic_l.torque_friction :=
  (C5_friction_torque model_technic_l 5).1 (by decide)

/-- C6 (amended): pbio_servo_get returns INVALID_PORT and leaves the servo
table unchanged for every port outside the configured range; for an
in-range port with successful driver acquisitions it succeeds for every
reported motor type id — an unknown id gets the default settings rather
than a NOT_SUPPORTED error — and it newly sets the connected flag only when
it returns success. -/
theorem C6_servo_get (table : Int → ServoEntry) (first_port last_port port gear : Int)
    (drv : SetupOutcome) :
    (port < first_port ∨ port > last_port →
      pbio_servo_get table first_port last_port port gear drv =
        (PbioError.INVALID_PORT, table)) ∧
    (¬(port < first_port ∨ port > last_port) →
      drv.dc_err = PbioError.SUCCESS → drv.tacho_err = PbioError.SUCCESS →
      (pbio_servo_get table first_port last_port port gear drv).1 = PbioError.SUCCESS ∧
      ((pbio_servo_get table first_port last_port port gear drv).2 (port - first_port)).connected
        = true ∧
      ((pbio_servo_get table first_port last_port port gear drv).2 (port - first_port)).settings
        = { load_servo_settings drv.dc_id with counts_per_unit := gear }) ∧
    ((pbio_servo_get table first_port last_port port gear drv).1 ≠ PbioError.SUCCESS →
      ((pbio_servo_get table first_port last_port port gear drv).2 (port - first_port)).connected
        = (table (port - first_port)).connected) := by
  refine ⟨?_, ?_, ?_⟩
  · intro h
    simp [pbio_servo_get, h]
  · intro h h1 h2
    simp [pbio_servo_get, pbio_servo_setup, h, h1, h2]
  · intro h
    by_cases hrange : port < first_port ∨ port > last_port
    · simp [pbio_servo_get, hrange]
    · by_cases h1 : drv.dc_err = PbioError.SUCCESS
      · by_cases h2 : drv.tacho_err = PbioError.SUCCESS
        · simp [pbio_servo_get, pbio_servo_setup, hrange, h1, h2] at h
        · simp [pbio_servo_get, pbio_servo_setup, hrange, h1, h2]
      · simp [pbio_servo_get, pbio_servo_setup, hrange, h1]

/-- Counterexample to C6 as stated: with an in-range port and successful
driver acquisitions, a DC driver reporting the unknown, non-servo type id
NONE makes pbio_servo_get return SUCCESS (the default settings are loaded),
not NOT_SUPPORTED. -/
theorem C6_counterexample :
    (pbio_servo_get (fun _ => entry_init) 0 3 0 1
        { dc_err := PbioError.SUCCESS, dc_id := IodevTypeId.NONE
          tacho_err := PbioError.SUCCESS }).1 = PbioError.SUCCESS ∧
    PbioError.SUCCESS ≠ PbioError.NOT_SUPPORTED := by
  refine ⟨rfl, by decide⟩

/-- Witness for C6 at a concrete input: port 9 is outside the range 0..3
and is rejected with INVALID_PORT, leaving the table unchanged. -/
theorem C6_servo_get_witness :
    pbio_servo_get (fun _ => entry_init) 0 3 9 1
        { dc_err := PbioError.SUCCESS, dc_id := IodevTypeId.NONE
          tacho_err := PbioError.SUCCESS } =
      (PbioError.INVALID_PORT, fun _ => entry_init) :=
  (C6_servo_get (fun _ => entry_init) 0 3 9 1
    { dc_err := PbioError.SUCCESS, dc_id := IodevTypeId.NONE
      tacho_err := PbioError.SUCCESS }).1 (by decide)

/-- C7: the stall_time installed during servo setup is 200·US_PER_MS for
the three named motor types, but the default settings block installs the
bare literal 200 — 200 µs rather than 200 ms — so the claim fails for every
motor type that falls through to settings_servo_default; this is the
source bug flagged by the spec (duration=200 without US_PER_MS). -/
theorem C7_stall_time_units :
    (load_servo_settings IodevTypeId.EV3_MEDIUM_MOTOR).stall_time = 200 * US_PER_MS ∧
    (load_servo_settings IodevTypeId.EV3_LARGE_MOTOR).stall_time = 200 * US_PER_MS ∧
    (load_servo_settings IodevTypeId.MOVE_HUB_MOTOR).stall_time = 200 * US_PER_MS ∧
    (load_servo_settings IodevTypeId.TECHNIC_L_MOTOR).stall_time = 200 ∧
    (load_servo_settings IodevTypeId.TECHNIC_L_MOTOR).stall_time ≠ 200 * US_PER_MS := by
  refine ⟨rfl, rfl, rfl, rfl, by decide⟩

/-- C8: for every actuation command, if the underlying driver or control
call issued by pbio_servo_actuate returns an error then the control type
becomes NONE and the lowest-level coast is attempted before that error is
returned; on success no lowest-level coast is issued. -/
theorem C8_actuate_error (ctl : ServoControl) (drv : DriverOutcome)
    (act : Actuation) (control : Int) :
    ((pbio_servo_actuate ctl drv act control).1 ≠ PbioError.SUCCESS →
      (pbio_servo_actuate ctl drv act control).2.1.type = ControlType.NONE ∧
      (pbio_servo_actuate ctl drv act control).2.2 = true) ∧
    ((pbio_servo_actuate ctl drv act control).1 = PbioError.SUCCESS →
      (pbio_servo_actuate ctl drv act control).2.2 = false) := by
  cases act <;>
    simp only [pbio_servo_actuate] <;>
    split_ifs <;>
    simp_all [pbio_control_stop]

/-- Witness for C8 at a concrete input: a DUTY actuation whose driver call
fails with IOERR leaves the control type NONE and has attempted the
lowest-level coast. -/
theorem C8_actuate_error_witness :
    (pbio_servo_actuate { type := ControlType.TIMED, on_target := false, target := 0 }
        { coast := PbioError.SUCCESS, brake := PbioError.SUCCESS
          hold_start := PbioError.SUCCESS, duty := PbioError.IOERR }
        Actuation.DUTY 0).2.1.type = ControlType.NONE ∧
    (pbio_servo_actuate { type := ControlType.TIMED, on_target := false, target := 0 }
        { coast := PbioError.SUCCESS, brake := PbioError.SUCCESS
          hold_start := PbioError.SUCCESS, duty := PbioError.IOERR }
        Actuation.DUTY 0).2.2 = true :=
  (C8_actuate_error { type := ControlType.TIMED, on_target := false, target := 0 }
    { coast := PbioError.SUCCESS, brake := PbioError.SUCCESS
      hold_start := PbioError.SUCCESS, duty := PbioError.IOERR }
    Actuation.DUTY 0).1 (by decide)

/-- C9: pbio_servo_reset_angle dispatches on the control state: when
holding (ANGLE and on-target) and all reads succeed, it resets the tacho
and restarts tracking at new_angle + target_old - angle_old, shifting the
hold target by the same delta as the measured angle; when the control type
is NONE it only resets the tacho and leaves the control state unchanged;
in every other case it first coasts to a stop and then resets the tacho:
the third and fourth conjuncts show that in that case a coast is always
issued with control stopped and nothing tracked, and that once the coast
succeeds the tacho angle reset is performed and its result returned. -/
theorem C9_reset_angle_cases (ctl : ServoControl) (env : ResetAngleEnv)
    (drv : DriverOutcome) (a : Int) :
    (ctl.type = ControlType.ANGLE → ctl.on_target = true →
      env.angle_old_err = PbioError.SUCCESS → env.tacho_reset_err = PbioError.SUCCESS →
      env.track_err = PbioError.SUCCESS →
      pbio_servo_reset_angle ctl env drv a =
        { err := PbioError.SUCCESS
          ctl := pbio_control_start_hold_control ctl (a + env.target_old - env.angle_old)
          tacho_reset_done := true
          coasted := false
          tracked := some (a + env.target_old - env.angle_old) }) ∧
    (ctl.type = ControlType.NONE →
      pbio_servo_reset_angle ctl env drv a =
        { err := env.tacho_reset_err
          ctl := ctl
          tacho_reset_done := env.tacho_reset_err = PbioError.SUCCESS
          coasted := false
          tracked := none }) ∧
    (¬(ctl.type = ControlType.ANGLE ∧ ctl.on_target = true) →
      ctl.type ≠ ControlType.NONE →
      (pbio_servo_reset_angle ctl env drv a).coasted = true ∧
      (pbio_servo_reset_angle ctl env drv a).tracked = none ∧
      (pbio_servo_reset_angle ctl env drv a).ctl.type = ControlType.NONE) ∧
    (¬(ctl.type = ControlType.ANGLE ∧ ctl.on_target = true) →
      ctl.type ≠ ControlType.NONE →
      drv.coast = PbioError.SUCCESS →
      pbio_servo_reset_angle ctl env drv a =
        { err := env.tacho_reset_err
          ctl := pbio_control_stop ctl
          tacho_reset_done := env.tacho_reset_err = PbioError.SUCCESS
          coasted := true
          tracked := none }) := by
  refine ⟨?_, ?_, ?_, ?_⟩
  · intro h1 h2 h3 h4 h5
    simp [pbio_servo_reset_angle, h1, h2, h3, h4, h5]
  · intro h1
    have hne : ¬(ctl.type = ControlType.ANGLE ∧ ctl.on_target = true) := by
      intro hand
      rw [h1] at hand
      exact absurd hand.1 (by decide)
    simp [pbio_servo_reset_angle, hne, h1]
  · intro h1 h2
    simp only [pbio_servo_reset_angle, if_neg h1, if_neg h2]
    simp only [pbio_servo_stop, pbio_servo_actuate, pbio_control_stop]
    split_ifs <;> simp_all
  · intro h1 h2 h3
    simp only [pbio_servo_reset_angle, if_neg h1, if_neg h2]
    simp only [pbio_servo_stop, pbio_servo_actuate, pbio_control_stop, h3]
    split_ifs <;> simp_all

/-- Witness for C9 at a concrete input: resetting a holding servo (old
target 90, old measured angle 30) to angle 0 restarts tracking at 60. -/
theorem C9_reset_angle_cases_witness :
    pbio_servo_reset_angle { type := ControlType.ANGLE, on_target := true, target := 7 }
        { angle_old_err := PbioError.SUCCESS, angle_old := 30, target_old := 90
          tacho_reset_err := PbioError.SUCCESS, track_err := PbioError.SUCCESS }
        { coast := PbioError.SUCCESS, brake := PbioError.SUCCESS
          hold_start := PbioError.SUCCESS, duty := PbioError.SUCCESS } 0 =
      { err := PbioError.SUCCESS
        ctl := pbio_control_start_hold_control
          { type := ControlType.ANGLE, on_target := true, target := 7 } (0 + 90 - 30)
        tacho_reset_done := true
        coasted := false
        tracked := some (0 + 90 - 30) } :=
  (C9_reset_angle_cases { type := ControlType.ANGLE, on_target := true, target := 7 }
    { angle_old_err := PbioError.SUCCESS, angle_old := 30, target_old := 90
      tacho_reset_err := PbioError.SUCCESS, track_err := PbioError.SUCCESS }
    { coast := PbioError.SUCCESS, brake := PbioError.SUCCESS
      hold_start := PbioError.SUCCESS, duty := PbioError.SUCCESS } 0).1
    rfl rfl rfl rfl rfl

/-- C10: pbio_servo_set_duty_cycle stops the control loop before
delegating to the DC driver, so the control type is NONE afterwards even
when the driver call fails, and the driver's error is returned unchanged:
the operation is not atomic on error. -/
theorem C10_set_duty_stops_control (ctl : ServoControl) (duty_err : PbioError) :
    (pbio_servo_set_duty_cycle ctl duty_err).2.type = ControlType.NONE ∧
    (pbio_servo_set_duty_cycle ctl duty_err).1 = duty_err :=
  ⟨rfl, rfl⟩

end Pbio
